import Mathlib

/-!
# Verification of the kubos shell-protocol stdout codec and MAI-400 mode mapping

Shallow embedding of:

* `libs/shell-protocol/src/messages/stdout.rs` — `from_cbor` / `to_cbor` for the
  `Message::Stdout` variant, together with the CBOR wire layer used by the
  crate (`serde_cbor::ser::to_vec_packed` on the tuple
  `(channel_id : u32, "stdout", data : Option<&str>)`, and
  `serde_cbor::de::from_slice` for the decode direction of the unit test).
* `services/mai400-service/src/objects.rs` — `impl From<u8> for Mode`.

Rust machine integers are modelled as `Nat` with explicit range bounds where
they matter (`u32` channel ids are `< 2^32`, CBOR minor lengths `< 2^64`,
`u8` raw modes `< 256`).  Rust `String`/`&str` values are modelled as lists of
bytes carrying a proof of UTF-8 validity (`RStr`), which is exactly the Rust
representation (a `Vec<u8>` whose contents are valid UTF-8).  Fallible Rust
functions returning `Result` are modelled with `Except`.
-/

/-- Is `b` a UTF-8 continuation byte (`0x80..=0xBF`)? -/
def isCont (b : Nat) : Bool := 128 ≤ b && b ≤ 191

/-- RFC 3629 UTF-8 validity of a byte sequence: rejects overlong encodings,
surrogates and code points above `U+10FFFF`, exactly as Rust `str` does. -/
def validUtf8 : List Nat → Bool
  | [] => true
  | b :: rest =>
    if b < 128 then validUtf8 rest
    else if 194 ≤ b && b ≤ 223 then
      match rest with
      | c1 :: rest2 => isCont c1 && validUtf8 rest2
      | [] => false
    else if b == 224 then
      match rest with
      | c1 :: c2 :: rest2 => (160 ≤ c1 && c1 ≤ 191) && isCont c2 && validUtf8 rest2
      | _ => false
    else if 225 ≤ b && b ≤ 236 then
      match rest with
      | c1 :: c2 :: rest2 => isCont c1 && isCont c2 && validUtf8 rest2
      | _ => false
    else if b == 237 then
      match rest with
      | c1 :: c2 :: rest2 => (128 ≤ c1 && c1 ≤ 159) && isCont c2 && validUtf8 rest2
      | _ => false
    else if 238 ≤ b && b ≤ 239 then
      match rest with
      | c1 :: c2 :: rest2 => isCont c1 && isCont c2 && validUtf8 rest2
      | _ => false
    else if b == 240 then
      match rest with
      | c1 :: c2 :: c3 :: rest2 =>
        (144 ≤ c1 && c1 ≤ 191) && isCont c2 && isCont c3 && validUtf8 rest2
      | _ => false
    else if 241 ≤ b && b ≤ 243 then
      match rest with
      | c1 :: c2 :: c3 :: rest2 => isCont c1 && isCont c2 && isCont c3 && validUtf8 rest2
      | _ => false
    else if b == 244 then
      match rest with
      | c1 :: c2 :: c3 :: rest2 =>
        (128 ≤ c1 && c1 ≤ 143) && isCont c2 && isCont c3 && validUtf8 rest2
      | _ => false
    else false

/-- A Rust `String` / `&str`: a byte sequence that is valid UTF-8. -/
abbrev RStr := { bs : List Nat // validUtf8 bs = true }

/-- The UTF-8 bytes of the ASCII literal `"stdout"`. -/
def stdoutBytes : List Nat := [115, 116, 100, 111, 117, 116]

/-- The operation-name string literal `"stdout"`. -/
def stdoutStr : RStr := ⟨stdoutBytes, by decide⟩

/-- The empty string `""`. -/
def emptyStr : RStr := ⟨[], rfl⟩

/-- The string literal `"hello world"` from the crate's unit-test fixture. -/
def helloWorldStr : RStr := ⟨[104, 101, 108, 108, 111, 32, 119, 111, 114, 108, 100], by decide⟩

/-- The subset of `serde_cbor::Value` that the shell-protocol wire format uses
(integers, byte strings, text strings, arrays, booleans and null).  Floats,
maps and tags never occur in the stdout codec's traffic and are omitted. -/
inductive Value : Type where
  | Null : Value
  | Bool (b : Bool) : Value
  | Integer (i : Int) : Value
  | Bytes (bs : List Nat) : Value
  | Text (s : RStr) : Value
  | Array (vs : List Value) : Value

/-- `channel_protocol::ChannelMessage`: the decoded outer envelope — a channel
identifier (`u32`), the operation name, and the remaining opaque fields. -/
structure ChannelMessage : Type where
  channel_id : Nat
  name : RStr
  payload : List Value

/-- `shell_protocol::messages::Message`, restricted to the variant defined in
the sources (`stdout.rs`): `Stdout { channel_id: u32, data: String }`. -/
inductive Message : Type where
  | Stdout (channel_id : Nat) (data : RStr) : Message
  deriving DecidableEq

/-- The `ProtocolError` variants used by the stdout codec.  The underlying
`serde_cbor` error inside `MessageCreationError` is modelled by its
diagnostic string. -/
inductive ProtocolError : Type where
  | MessageParseError (err : String) : ProtocolError
  | MessageCreationError (message : String) (err : String) : ProtocolError
  deriving DecidableEq

instance exceptDecEq {ε α : Type} [DecidableEq ε] [DecidableEq α] :
    DecidableEq (Except ε α)
  | Except.ok x, Except.ok y =>
    if h : x = y then isTrue (by rw [h]) else isFalse (fun hh => h (Except.ok.inj hh))
  | Except.error x, Except.error y =>
    if h : x = y then isTrue (by rw [h]) else isFalse (fun hh => h (Except.error.inj hh))
  | Except.ok _, Except.error _ => isFalse (fun hh => Except.noConfusion hh)
  | Except.error _, Except.ok _ => isFalse (fun hh => Except.noConfusion hh)

/-- `stdout.rs` `from_cbor`: CBOR -> `Message::Stdout`.  Reads element 0 of the
payload; a text string there yields `Ok(Stdout { channel_id, data })`,
anything else (missing element included) yields
`MessageParseError { err: "No stdout data found" }`. -/
def from_cbor (message : ChannelMessage) : Except ProtocolError Message :=
  match message.payload.get? 0 with
  | some (Value.Text data) => Except.ok (Message.Stdout message.channel_id data)
  | _ => Except.error (ProtocolError.MessageParseError "No stdout data found")

/-- Minimal-length CBOR header for major type `major` and value/length `n`,
as written by `serde_cbor`'s serializer (values `≥ 2^64` cannot arise from the
Rust types; the final branch truncates like a `u64` cast would). -/
def cborHeader (major : Nat) (n : Nat) : List Nat :=
  if n < 24 then [32 * major + n]
  else if n < 256 then [32 * major + 24, n]
  else if n < 65536 then [32 * major + 25, n / 256, n % 256]
  else if n < 4294967296 then
    [32 * major + 26, n / 16777216 % 256, n / 65536 % 256, n / 256 % 256, n % 256]
  else
    [32 * major + 27, n / 72057594037927936 % 256, n / 281474976710656 % 256,
     n / 1099511627776 % 256, n / 4294967296 % 256, n / 16777216 % 256,
     n / 65536 % 256, n / 256 % 256, n % 256]

/-- The byte sequence `serde_cbor::ser::to_vec_packed(&(channel_id, "stdout", data))`
produces: a definite-length CBOR array of three items — the channel id
(major 0, minimal length), the text `"stdout"`, and either the text payload or
the null marker `0xf6`. -/
def serBytes (channel_id : Nat) (data : Option RStr) : List Nat :=
  cborHeader 4 3 ++ cborHeader 0 channel_id ++
    cborHeader 3 stdoutStr.val.length ++ stdoutStr.val ++
    match data with
    | some s => cborHeader 3 s.val.length ++ s.val
    | none => [246]

/-- `serde_cbor::ser::to_vec_packed` applied to `(channel_id, "stdout", data)`.
Serialization into a `Vec<u8>` cannot fail for this data shape, so the result
is always `ok`; the `Except` mirrors the Rust `Result` signature. -/
def ser_to_vec_packed (channel_id : Nat) (data : Option RStr) : Except String (List Nat) :=
  Except.ok (serBytes channel_id data)

/-- The `map_err` wrapper in `to_cbor`: a serializer error becomes
`MessageCreationError { message: "stdout", err }`, a success passes through. -/
def mapCreationError (r : Except String (List Nat)) : Except ProtocolError (List Nat) :=
  match r with
  | Except.ok v => Except.ok v
  | Except.error err => Except.error (ProtocolError.MessageCreationError "stdout" err)

/-- `stdout.rs` `to_cbor`: `Stdout` -> CBOR bytes. -/
def to_cbor (channel_id : Nat) (data : Option RStr) : Except ProtocolError (List Nat) :=
  mapCreationError (ser_to_vec_packed channel_id data)

/-- `impl From<u8> for Mode` target type from `mai400-service/src/objects.rs`. -/
inductive Mode : Type where
  | TestMode
  | RateNulling
  | Reserved1
  | NadirPointing
  | LatLongPointing
  | QbxMode
  | Reserved2
  | NormalSun
  | LatLongSun
  | Qintertial
  | Reserved3
  | Qtable
  | SunRam
  | Unknown
  deriving DecidableEq

/-- The discriminant each `Mode` variant is declared with in the Rust enum. -/
def Mode.discriminant : Mode → Nat
  | Mode.TestMode => 0
  | Mode.RateNulling => 1
  | Mode.Reserved1 => 2
  | Mode.NadirPointing => 3
  | Mode.LatLongPointing => 4
  | Mode.QbxMode => 5
  | Mode.Reserved2 => 6
  | Mode.NormalSun => 7
  | Mode.LatLongSun => 8
  | Mode.Qintertial => 9
  | Mode.Reserved3 => 10
  | Mode.Qtable => 11
  | Mode.SunRam => 12
  | Mode.Unknown => 255

/-- `impl From<u8> for Mode`: the match on the raw telemetry byte. -/
def Mode.fromU8 (raw : Nat) : Mode :=
  match raw with
  | 0 => Mode.TestMode
  | 1 => Mode.RateNulling
  | 2 => Mode.Reserved1
  | 3 => Mode.NadirPointing
  | 4 => Mode.LatLongPointing
  | 5 => Mode.QbxMode
  | 6 => Mode.Reserved2
  | 7 => Mode.NormalSun
  | 8 => Mode.LatLongSun
  | 9 => Mode.Qintertial
  | 10 => Mode.Reserved3
  | 11 => Mode.Qtable
  | 12 => Mode.SunRam
  | _ => Mode.Unknown

/-- Read the value/length encoded by a CBOR additional-information field
`ai` (the low five bits of the initial byte) and the following bytes. -/
def readUInt (ai : Nat) (bs : List Nat) : Option (Nat × List Nat) :=
  if ai < 24 then some (ai, bs)
  else if ai = 24 then
    match bs with
    | b0 :: r => some (b0, r)
    | _ => none
  else if ai = 25 then
    match bs with
    | b1 :: b0 :: r => some (256 * b1 + b0, r)
    | _ => none
  else if ai = 26 then
    match bs with
    | b3 :: b2 :: b1 :: b0 :: r =>
      some (16777216 * b3 + 65536 * b2 + 256 * b1 + b0, r)
    | _ => none
  else if ai = 27 then
    match bs with
    | b7 :: b6 :: b5 :: b4 :: b3 :: b2 :: b1 :: b0 :: r =>
      some (72057594037927936 * b7 + 281474976710656 * b6 + 1099511627776 * b5 +
            4294967296 * b4 + 16777216 * b3 + 65536 * b2 + 256 * b1 + b0, r)
    | _ => none
  else none

/-- Split a CBOR item's initial byte into its major type and read its
value/length argument. -/
def decodeHeader (bs : List Nat) : Option (Nat × Nat × List Nat) :=
  match bs with
  | [] => none
  | b :: rest => (readUInt (b % 32) rest).map (fun p => (b / 32, p.1, p.2))

/-- Take exactly `n` bytes off the front of a list. -/
def takeN : Nat → List Nat → Option (List Nat × List Nat)
  | 0, bs => some ([], bs)
  | _ + 1, [] => none
  | n + 1, b :: bs => (takeN n bs).map (fun p => (b :: p.1, p.2))

/-- Decode `n` consecutive CBOR items (fuel-bounded; `serde_cbor::de`
restricted to the `Value` subset above, definite lengths only). -/
def decodeVals : Nat → Nat → List Nat → Option (List Value × List Nat)
  | 0, _, _ => none
  | _ + 1, 0, bs => some ([], bs)
  | fuel + 1, n + 1, bs =>
    match decodeHeader bs with
    | none => none
    | some (major, v, r) =>
      match major with
      | 0 =>
        match decodeVals fuel n r with
        | some (vs, r2) => some (Value.Integer (Int.ofNat v) :: vs, r2)
        | none => none
      | 1 =>
        match decodeVals fuel n r with
        | some (vs, r2) => some (Value.Integer (-1 - Int.ofNat v) :: vs, r2)
        | none => none
      | 2 =>
        match takeN v r with
        | some (chunk, r2) =>
          match decodeVals fuel n r2 with
          | some (vs, r3) => some (Value.Bytes chunk :: vs, r3)
          | none => none
        | none => none
      | 3 =>
        match takeN v r with
        | some (chunk, r2) =>
          if h : validUtf8 chunk = true then
            match decodeVals fuel n r2 with
            | some (vs, r3) => some (Value.Text ⟨chunk, h⟩ :: vs, r3)
            | none => none
          else none
        | none => none
      | 4 =>
        match decodeVals fuel v r with
        | some (elems, r2) =>
          match decodeVals fuel n r2 with
          | some (vs, r3) => some (Value.Array elems :: vs, r3)
          | none => none
        | none => none
      | 7 =>
        match v with
        | 20 =>
          match decodeVals fuel n r with
          | some (vs, r2) => some (Value.Bool false :: vs, r2)
          | none => none
        | 21 =>
          match decodeVals fuel n r with
          | some (vs, r2) => some (Value.Bool true :: vs, r2)
          | none => none
        | 22 =>
          match decodeVals fuel n r with
          | some (vs, r2) => some (Value.Null :: vs, r2)
          | none => none
        | _ => none
      | _ => none

/-- `serde_cbor::de::from_slice::<Value>`: decode one CBOR item occupying the
whole input. -/
def from_slice (bs : List Nat) : Option Value :=
  match decodeVals (bs.length + 1) 1 bs with
  | some ([v], []) => some v
  | _ => none

/-- Modelled from the spec: `channel_protocol::parse_message` is not among the
sources; per §6 it "decodes the outer envelope down to a channel id + opaque
fields", and per §4.1/§6 the envelope is the ordered tuple
`(channel_id : unsigned integer, operation_name : ASCII string, fields...)`.
A well-formed envelope is an array whose head is an unsigned integer fitting
`u32` followed by a text operation name; the remaining items become the
opaque payload. -/
def parse_message (v : Value) : Option ChannelMessage :=
  match v with
  | Value.Array (Value.Integer c :: Value.Text name :: rest) =>
    if 0 ≤ c ∧ c < 4294967296 then some ⟨c.toNat, name, rest⟩ else none
  | _ => none

/-- Decode raw bytes down to the generic channel envelope (the composition the
crate's unit test applies: `parse_message(de::from_slice(&raw))`). -/
def decode_envelope (bs : List Nat) : Option ChannelMessage :=
  (from_slice bs).bind parse_message

/-- The full round trip of the crate's unit test `create_parse_stdout_message`:
encode, deserialize the bytes, parse the envelope, resolve the variant.
`none` marks a failure of one of the two outer (non-`from_cbor`) stages. -/
def create_parse_stdout (channel_id : Nat) (data : Option RStr) :
    Option (Except ProtocolError Message) :=
  match to_cbor channel_id data with
  | Except.ok raw => (decode_envelope raw).map from_cbor
  | Except.error _ => none

/-- The CBOR wire value a `Stdout` payload position holds: the text itself
when present, the explicit null marker when absent. -/
def payloadValue (data : Option RStr) : Value :=
  match data with
  | some s => Value.Text s
  | none => Value.Null

/-- Byte length of the optional payload. -/
def payloadLen (data : Option RStr) : Nat :=
  match data with
  | some s => s.val.length
  | none => 0


mutual

/-- Canonical (minimal-length, definite) CBOR encoding of a `Value`, per
RFC 8949; the independent reference against which `to_cbor` is compared. -/
def encodeValue : Value → List Nat
  | Value.Null => [246]
  | Value.Bool false => [244]
  | Value.Bool true => [245]
  | Value.Integer i => if 0 ≤ i then cborHeader 0 i.toNat else cborHeader 1 (-1 - i).toNat
  | Value.Bytes bs => cborHeader 2 bs.length ++ bs
  | Value.Text s => cborHeader 3 s.val.length ++ s.val
  | Value.Array vs => cborHeader 4 vs.length ++ encodeValueList vs

/-- Concatenated canonical encodings of consecutive CBOR items. -/
def encodeValueList : List Value → List Nat
  | [] => []
  | v :: vs => encodeValue v ++ encodeValueList vs

end

theorem takeN_append (l rest : List Nat) : takeN l.length (l ++ rest) = some (l, rest) := by
  induction l with
  | nil => rfl
  | cons b bs ih => simp [takeN, ih]

theorem cborHeader_length_pos (major n : Nat) : 1 ≤ (cborHeader major n).length := by
  unfold cborHeader
  split_ifs <;> simp

theorem decodeHeader_header (m n : Nat) (rest : List Nat)
    (hn : n < 18446744073709551616) :
    decodeHeader (cborHeader m n ++ rest) = some (m, n, rest) := by
  unfold cborHeader
  split_ifs with h1 h2 h3 h4
  · have hmod : (32 * m + n) % 32 = n := by omega
    have hdiv : (32 * m + n) / 32 = m := by omega
    simp [decodeHeader, readUInt, hmod, hdiv, h1]
  · have hmod : (32 * m + 24) % 32 = 24 := by omega
    have hdiv : (32 * m + 24) / 32 = m := by omega
    simp [decodeHeader, readUInt, hmod, hdiv]
  · have hmod : (32 * m + 25) % 32 = 25 := by omega
    have hdiv : (32 * m + 25) / 32 = m := by omega
    have hre : 256 * (n / 256) + n % 256 = n := by omega
    simp [decodeHeader, readUInt, hmod, hdiv, hre]
  · have hmod : (32 * m + 26) % 32 = 26 := by omega
    have hdiv : (32 * m + 26) / 32 = m := by omega
    have hre : 16777216 * (n / 16777216 % 256) + 65536 * (n / 65536 % 256) +
        256 * (n / 256 % 256) + n % 256 = n := by omega
    simp [decodeHeader, readUInt, hmod, hdiv, hre]
  · have hmod : (32 * m + 27) % 32 = 27 := by omega
    have hdiv : (32 * m + 27) / 32 = m := by omega
    have hre : 72057594037927936 * (n / 72057594037927936 % 256) +
        281474976710656 * (n / 281474976710656 % 256) +
        1099511627776 * (n / 1099511627776 % 256) +
        4294967296 * (n / 4294967296 % 256) + 16777216 * (n / 16777216 % 256) +
        65536 * (n / 65536 % 256) + 256 * (n / 256 % 256) + n % 256 = n := by omega
    simp [decodeHeader, readUInt, hmod, hdiv, hre]

theorem decodeVals_uint (fuel n c : Nat) (rest : List Nat)
    (hc : c < 18446744073709551616) :
    decodeVals (fuel + 1) (n + 1) (cborHeader 0 c ++ rest) =
      (decodeVals fuel n rest).map (fun p => (Value.Integer (Int.ofNat c) :: p.1, p.2)) := by
  have h := decodeHeader_header 0 c rest hc
  simp only [decodeVals, h]
  rcases decodeVals fuel n rest with _ | ⟨vs, r2⟩ <;> rfl

theorem decodeVals_text (fuel n : Nat) (chunk : List Nat) (h : validUtf8 chunk = true)
    (rest : List Nat) (hlen : chunk.length < 18446744073709551616) :
    decodeVals (fuel + 1) (n + 1) (cborHeader 3 chunk.length ++ (chunk ++ rest)) =
      (decodeVals fuel n rest).map (fun p => (Value.Text ⟨chunk, h⟩ :: p.1, p.2)) := by
  have hh := decodeHeader_header 3 chunk.length (chunk ++ rest) hlen
  simp only [decodeVals, hh, takeN_append chunk rest, h, dite_true]
  rcases decodeVals fuel n rest with _ | ⟨vs, r2⟩ <;> rfl

theorem decodeVals_null (fuel n : Nat) (rest : List Nat) :
    decodeVals (fuel + 1) (n + 1) (246 :: rest) =
      (decodeVals fuel n rest).map (fun p => (Value.Null :: p.1, p.2)) := by
  simp only [decodeVals, decodeHeader, readUInt]
  norm_num
  rcases decodeVals fuel n rest with _ | ⟨vs, r2⟩ <;> rfl

theorem decodeVals_array3 (fuel : Nat) (rest : List Nat) :
    decodeVals (fuel + 1) 1 (131 :: rest) =
      match decodeVals fuel 3 rest with
      | some (elems, r2) =>
        match decodeVals fuel 0 r2 with
        | some (vs, r3) => some (Value.Array elems :: vs, r3)
        | none => none
      | none => none := by
  have h1 : (1 : Nat) = 0 + 1 := rfl
  rw [h1]
  simp only [decodeVals, decodeHeader, readUInt]
  norm_num

theorem serBytes_some (c : Nat) (s : RStr) :
    serBytes c (some s) =
      131 :: (cborHeader 0 c ++ (102 :: (stdoutBytes ++
        (cborHeader 3 s.val.length ++ (s.val ++ []))))) := by
  have h1 : cborHeader 4 3 = [131] := rfl
  have h2 : cborHeader 3 stdoutBytes.length = [102] := rfl
  have h3 : stdoutStr.val = stdoutBytes := rfl
  simp only [serBytes, h1, h3, h2, List.append_assoc, List.singleton_append,
    List.cons_append, List.append_nil, List.nil_append]

theorem serBytes_none (c : Nat) :
    serBytes c none =
      131 :: (cborHeader 0 c ++ (102 :: (stdoutBytes ++ (246 :: [])))) := by
  have h1 : cborHeader 4 3 = [131] := rfl
  have h2 : cborHeader 3 stdoutBytes.length = [102] := rfl
  have h3 : stdoutStr.val = stdoutBytes := rfl
  simp only [serBytes, h1, h3, h2, List.append_assoc, List.singleton_append,
    List.cons_append, List.append_nil, List.nil_append]

theorem serBytes_length (c : Nat) (d : Option RStr) : 4 ≤ (serBytes c d).length := by
  have hp := cborHeader_length_pos 0 c
  cases d with
  | none =>
    rw [serBytes_none]
    simp only [List.length_cons, List.length_append, stdoutBytes]
    omega
  | some s =>
    rw [serBytes_some]
    simp only [List.length_cons, List.length_append, stdoutBytes]
    omega

theorem from_slice_serBytes (c : Nat) (hc : c < 4294967296) (d : Option RStr)
    (hd : payloadLen d < 18446744073709551616) :
    from_slice (serBytes c d) =
      some (Value.Array [Value.Integer (Int.ofNat c), Value.Text stdoutStr, payloadValue d]) := by
  obtain ⟨f, hf⟩ : ∃ f, (serBytes c d).length + 1 = f + 5 :=
    ⟨(serBytes c d).length - 4, by have := serBytes_length c d; omega⟩
  unfold from_slice
  rw [hf]
  cases d with
  | none =>
    rw [serBytes_none]
    have h_arr : decodeVals (f + 5) 1
        (131 :: (cborHeader 0 c ++ (102 :: (stdoutBytes ++ (246 :: []))))) =
        match decodeVals (f + 4) 3 (cborHeader 0 c ++ (102 :: (stdoutBytes ++ (246 :: [])))) with
        | some (elems, r2) =>
          match decodeVals (f + 4) 0 r2 with
          | some (vs, r3) => some (Value.Array elems :: vs, r3)
          | none => none
        | none => none :=
      decodeVals_array3 (f + 4) _
    rw [h_arr]
    have h_int : decodeVals (f + 4) 3 (cborHeader 0 c ++ (102 :: (stdoutBytes ++ (246 :: [])))) =
        (decodeVals (f + 3) 2 (102 :: (stdoutBytes ++ (246 :: [])))).map
          (fun p => (Value.Integer (Int.ofNat c) :: p.1, p.2)) :=
      decodeVals_uint (f + 3) 2 c _ (by omega)
    rw [h_int]
    have h_txt : decodeVals (f + 3) 2 (102 :: (stdoutBytes ++ (246 :: []))) =
        (decodeVals (f + 2) 1 (246 :: [])).map
          (fun p => (Value.Text stdoutStr :: p.1, p.2)) :=
      decodeVals_text (f + 2) 1 stdoutBytes (by decide) (246 :: []) (by decide)
    rw [h_txt]
    have h_null : decodeVals (f + 2) 1 (246 :: ([] : List Nat)) =
        (decodeVals (f + 1) 0 []).map (fun p => (Value.Null :: p.1, p.2)) :=
      decodeVals_null (f + 1) 0 []
    rw [h_null]
    have h_done : decodeVals (f + 1) 0 ([] : List Nat) = some ([], []) := rfl
    rw [h_done]
    rfl
  | some s =>
    rw [serBytes_some]
    have h_arr : decodeVals (f + 5) 1
        (131 :: (cborHeader 0 c ++ (102 :: (stdoutBytes ++
          (cborHeader 3 s.val.length ++ (s.val ++ [])))))) =
        match decodeVals (f + 4) 3 (cborHeader 0 c ++ (102 :: (stdoutBytes ++
            (cborHeader 3 s.val.length ++ (s.val ++ []))))) with
        | some (elems, r2) =>
          match decodeVals (f + 4) 0 r2 with
          | some (vs, r3) => some (Value.Array elems :: vs, r3)
          | none => none
        | none => none :=
      decodeVals_array3 (f + 4) _
    rw [h_arr]
    have h_int : decodeVals (f + 4) 3 (cborHeader 0 c ++ (102 :: (stdoutBytes ++
        (cborHeader 3 s.val.length ++ (s.val ++ []))))) =
        (decodeVals (f + 3) 2 (102 :: (stdoutBytes ++
          (cborHeader 3 s.val.length ++ (s.val ++ []))))).map
          (fun p => (Value.Integer (Int.ofNat c) :: p.1, p.2)) :=
      decodeVals_uint (f + 3) 2 c _ (by omega)
    rw [h_int]
    have h_txt : decodeVals (f + 3) 2 (102 :: (stdoutBytes ++
        (cborHeader 3 s.val.length ++ (s.val ++ [])))) =
        (decodeVals (f + 2) 1 (cborHeader 3 s.val.length ++ (s.val ++ []))).map
          (fun p => (Value.Text stdoutStr :: p.1, p.2)) :=
      decodeVals_text (f + 2) 1 stdoutBytes (by decide) _ (by decide)
    rw [h_txt]
    have h_pay : decodeVals (f + 2) 1 (cborHeader 3 s.val.length ++ (s.val ++ [])) =
        (decodeVals (f + 1) 0 []).map
          (fun p => (Value.Text s :: p.1, p.2)) :=
      decodeVals_text (f + 1) 0 s.val s.property [] hd
    rw [h_pay]
    have h_done : decodeVals (f + 1) 0 ([] : List Nat) = some ([], []) := rfl
    rw [h_done]
    rfl

theorem int_bounds (c : Nat) (hc : c < 4294967296) :
    0 ≤ (Int.ofNat c) ∧ (Int.ofNat c) < 4294967296 := by
  refine ⟨Int.ofNat_nonneg c, ?_⟩
  exact Int.ofNat_lt.mpr hc

theorem parse_message_triple (c : Nat) (hc : c < 4294967296) (d : Option RStr) :
    parse_message (Value.Array [Value.Integer (Int.ofNat c), Value.Text stdoutStr,
      payloadValue d]) = some ⟨c, stdoutStr, [payloadValue d]⟩ := by
  have h2 : ((Int.ofNat c).toNat : Nat) = c := rfl
  simp only [parse_message]
  rw [if_pos (int_bounds c hc), h2]

theorem decode_envelope_serBytes (c : Nat) (hc : c < 4294967296) (d : Option RStr)
    (hd : payloadLen d < 18446744073709551616) :
    decode_envelope (serBytes c d) = some ⟨c, stdoutStr, [payloadValue d]⟩ := by
  unfold decode_envelope
  rw [from_slice_serBytes c hc d hd, Option.some_bind]
  exact parse_message_triple c hc d

theorem to_cbor_ok (c : Nat) (d : Option RStr) :
    to_cbor c d = Except.ok (serBytes c d) := rfl

theorem stdout_pipeline (c : Nat) (hc : c < 4294967296) (d : Option RStr)
    (hd : payloadLen d < 18446744073709551616) :
    create_parse_stdout c d = some (from_cbor ⟨c, stdoutStr, [payloadValue d]⟩) := by
  unfold create_parse_stdout
  rw [to_cbor_ok]
  show (decode_envelope (serBytes c d)).map from_cbor = _
  rw [decode_envelope_serBytes c hc d hd]
  rfl

/-- C1: for every `u32` channel identifier `c` and every string `s`, encoding a
`Stdout` message with `to_cbor(c, Some(s))` and then decoding the bytes (outer
envelope via `parse_message`, then `from_cbor`) yields
`Ok(Message::Stdout { channel_id: c, data: s })` — no field is lost. -/
theorem C1_stdout_roundtrip (c : Nat) (hc : c < 4294967296) (s : RStr)
    (hs : s.val.length < 18446744073709551616) :
    create_parse_stdout c (some s) = some (Except.ok (Message.Stdout c s)) := by
  rw [stdout_pipeline c hc (some s) hs]
  rfl

/-- C1 witness at the literal fixture of the crate's unit test:
channel 13, data `"hello world"`. -/
theorem C1_stdout_roundtrip_witness :
    13 < 4294967296 ∧ create_parse_stdout 13 (some helloWorldStr) =
      some (Except.ok (Message.Stdout 13 helloWorldStr)) :=
  ⟨by decide, C1_stdout_roundtrip 13 (by decide) helloWorldStr (by decide)⟩

/-- C2 counterexample: at channel 5, the absent-payload encoding
`to_cbor(5, None)` decodes to a `MessageParseError`, not to a successful
(`Ok`) result; it is nonetheless distinguished from the empty-but-present
payload, which decodes to `Ok(Stdout { channel_id: 5, data: "" })`. -/
theorem C2_counterexample :
    create_parse_stdout 5 none =
      some (Except.error (ProtocolError.MessageParseError "No stdout data found")) ∧
    create_parse_stdout 5 (some emptyStr) =
      some (Except.ok (Message.Stdout 5 emptyStr)) ∧
    create_parse_stdout 5 none ≠ create_parse_stdout 5 (some emptyStr) := by
  refine ⟨rfl, rfl, ?_⟩
  decide

/-- C2 amended: for every `u32` channel identifier `c`, the decoder
distinguishes the absent payload from the empty-but-present payload — the
empty-but-present case decodes to `Ok(Stdout { channel_id: c, data: "" })`,
while the absent-payload case (encoded as CBOR null) is rejected by
`from_cbor` with `MessageParseError "No stdout data found"` rather than being
conflated with the zero-length string; its decoding does not succeed. -/
theorem C2_absent_vs_empty (c : Nat) (hc : c < 4294967296) :
    create_parse_stdout c none =
      some (Except.error (ProtocolError.MessageParseError "No stdout data found")) ∧
    create_parse_stdout c (some emptyStr) =
      some (Except.ok (Message.Stdout c emptyStr)) := by
  constructor
  · rw [stdout_pipeline c hc none (by decide)]
    rfl
  · rw [stdout_pipeline c hc (some emptyStr) (by decide)]
    rfl

/-- C2 witness at channel 5 (the spec's end-to-end scenario 3). -/
theorem C2_absent_vs_empty_witness :
    create_parse_stdout 5 none =
      some (Except.error (ProtocolError.MessageParseError "No stdout data found")) ∧
    create_parse_stdout 5 (some emptyStr) =
      some (Except.ok (Message.Stdout 5 emptyStr)) :=
  C2_absent_vs_empty 5 (by decide)

/-- C4 counterexample: the single byte `0xFF` is not valid UTF-8, so no Rust
string value can carry it — the payload type excludes it — and a CBOR byte
string (major type 2) carrying it is rejected by `from_cbor` rather than
recovered; the data field is therefore not an arbitrary byte sequence. -/
theorem C4_counterexample :
    validUtf8 [255] = false ∧
    from_cbor ⟨5, stdoutStr, [Value.Bytes [255]]⟩ =
      Except.error (ProtocolError.MessageParseError "No stdout data found") :=
  ⟨rfl, rfl⟩

/-- C4 amended: the data field of a `Stdout` message is an opaque UTF-8
string: for every byte sequence that is valid UTF-8 — including the empty
sequence — a `Stdout` message carrying it can be encoded by `to_cbor` and
recovered by `from_cbor`; the empty sequence is a valid payload value that
decodes to `Ok` (it is never treated as end of stream). -/
theorem C4_utf8_payload_roundtrip (c : Nat) (hc : c < 4294967296) (bs : List Nat)
    (h : validUtf8 bs = true) (hlen : bs.length < 18446744073709551616) :
    create_parse_stdout c (some ⟨bs, h⟩) =
      some (Except.ok (Message.Stdout c ⟨bs, h⟩)) := by
  rw [stdout_pipeline c hc (some ⟨bs, h⟩) hlen]
  rfl

/-- C4 witness with the empty byte sequence at channel 2. -/
theorem C4_utf8_payload_roundtrip_witness :
    validUtf8 [] = true ∧
    create_parse_stdout 2 (some emptyStr) =
      some (Except.ok (Message.Stdout 2 emptyStr)) :=
  ⟨rfl, C4_utf8_payload_roundtrip 2 (by decide) [] rfl (by decide)⟩

theorem encodeValue_array3 (a b e : Value) :
    encodeValue (Value.Array [a, b, e]) =
      cborHeader 4 3 ++ (encodeValue a ++ (encodeValue b ++ (encodeValue e ++ []))) := by
  simp [encodeValue, encodeValueList]

/-- C3: for every channel identifier and optional payload, `to_cbor(c, d)`
produces exactly the canonical compact (packed, definite-length) CBOR
encoding of the ordered triple `(c, "stdout", d)`, with the lowercase ASCII
operation name `"stdout"` in the middle position and the payload position
holding the text payload when present or the explicit null marker when
absent. -/
theorem C3_wire_format (c : Nat) (d : Option RStr) :
    to_cbor c d = Except.ok (encodeValue (Value.Array
      [Value.Integer (Int.ofNat c), Value.Text stdoutStr, payloadValue d])) := by
  rw [to_cbor_ok, encodeValue_array3]
  have hint : encodeValue (Value.Integer (Int.ofNat c)) = cborHeader 0 c := by
    have h2 : ((Int.ofNat c).toNat : Nat) = c := rfl
    have hnn : (0 : Int) ≤ Int.ofNat c := Int.ofNat_nonneg c
    simp only [encodeValue]
    rw [if_pos hnn, h2]
  have htxt : encodeValue (Value.Text stdoutStr) =
      cborHeader 3 stdoutStr.val.length ++ stdoutStr.val := by
    simp only [encodeValue]
  cases d with
  | none =>
    have hnull : encodeValue (payloadValue none) = [246] := rfl
    rw [hint, htxt, hnull]
    simp [serBytes, List.append_assoc]
  | some s =>
    have hsome : encodeValue (payloadValue (some s)) =
        cborHeader 3 s.val.length ++ s.val := rfl
    rw [hint, htxt, hsome]
    simp [serBytes, List.append_assoc]

/-- C5: decoding is total — for every input `ChannelMessage`, whatever its
payload, `from_cbor` returns either `Ok` of a fully populated
`Message::Stdout` (channel id taken from the message, data from the first
payload element) or an error value carrying a diagnostic string; there is no
other outcome and no partially populated message. -/
theorem C5_decode_total (m : ChannelMessage) :
    (∃ e, from_cbor m = Except.error (ProtocolError.MessageParseError e)) ∨
    (∃ d, m.payload.get? 0 = some (Value.Text d) ∧
      from_cbor m = Except.ok (Message.Stdout m.channel_id d)) := by
  unfold from_cbor
  cases hm : m.payload.get? 0 with
  | none => exact Or.inl ⟨"No stdout data found", rfl⟩
  | some v =>
    cases v with
    | Text s => exact Or.inr ⟨s, rfl, rfl⟩
    | Null => exact Or.inl ⟨"No stdout data found", rfl⟩
    | Bool b => exact Or.inl ⟨"No stdout data found", rfl⟩
    | Integer i => exact Or.inl ⟨"No stdout data found", rfl⟩
    | Bytes bs => exact Or.inl ⟨"No stdout data found", rfl⟩
    | Array vs => exact Or.inl ⟨"No stdout data found", rfl⟩

/-- C6 counterexample: two inputs whose first payload elements differ (an
integer versus a missing element) produce literally identical
`MessageParseError` values, so the diagnostic cannot name what was found
— it is the fixed string `"No stdout data found"`. -/
theorem C6_counterexample :
    from_cbor ⟨1, stdoutStr, [Value.Integer 7]⟩ = from_cbor ⟨1, stdoutStr, []⟩ ∧
    from_cbor ⟨1, stdoutStr, [Value.Integer 7]⟩ =
      Except.error (ProtocolError.MessageParseError "No stdout data found") :=
  ⟨rfl, rfl⟩

/-- C6 amended: `from_cbor(m)` fails if and only if the first element of
`m.payload` is not a CBOR text string, and on failure it returns a
`MessageParseError` with the fixed diagnostic `"No stdout data found"`
(naming the expected shape but not what was found); when the first element is
a text string it resolves to exactly the `Stdout` variant. -/
theorem C6_parse_error_iff (m : ChannelMessage) :
    ((from_cbor m = Except.error (ProtocolError.MessageParseError "No stdout data found"))
      ↔ ∀ s, m.payload.get? 0 ≠ some (Value.Text s)) ∧
    (∀ s, m.payload.get? 0 = some (Value.Text s) →
      from_cbor m = Except.ok (Message.Stdout m.channel_id s)) := by
  unfold from_cbor
  cases hm : m.payload.get? 0 with
  | none =>
    exact ⟨⟨fun _ s hs => Option.noConfusion hs, fun _ => rfl⟩,
      fun s hs => Option.noConfusion hs⟩
  | some v =>
    cases v with
    | Text s =>
      refine ⟨⟨fun h => absurd h (by simp), fun h => absurd rfl (h s)⟩, ?_⟩
      intro t ht
      have hts : Value.Text s = Value.Text t := Option.some.inj ht
      rw [Value.Text.inj hts]
    | Null =>
      exact ⟨⟨fun _ s hs => Option.noConfusion hs (fun he => Value.noConfusion he),
        fun _ => rfl⟩, fun s hs => Option.noConfusion hs (fun he => Value.noConfusion he)⟩
    | Bool b =>
      exact ⟨⟨fun _ s hs => Option.noConfusion hs (fun he => Value.noConfusion he),
        fun _ => rfl⟩, fun s hs => Option.noConfusion hs (fun he => Value.noConfusion he)⟩
    | Integer i =>
      exact ⟨⟨fun _ s hs => Option.noConfusion hs (fun he => Value.noConfusion he),
        fun _ => rfl⟩, fun s hs => Option.noConfusion hs (fun he => Value.noConfusion he)⟩
    | Bytes bs =>
      exact ⟨⟨fun _ s hs => Option.noConfusion hs (fun he => Value.noConfusion he),
        fun _ => rfl⟩, fun s hs => Option.noConfusion hs (fun he => Value.noConfusion he)⟩
    | Array vs =>
      exact ⟨⟨fun _ s hs => Option.noConfusion hs (fun he => Value.noConfusion he),
        fun _ => rfl⟩, fun s hs => Option.noConfusion hs (fun he => Value.noConfusion he)⟩

/-- C6 witness: a non-text head yields the fixed parse error; a text head
resolves to the `Stdout` variant. -/
theorem C6_parse_error_iff_witness :
    from_cbor ⟨2, stdoutStr, []⟩ =
      Except.error (ProtocolError.MessageParseError "No stdout data found") ∧
    from_cbor ⟨2, stdoutStr, [Value.Text helloWorldStr]⟩ =
      Except.ok (Message.Stdout 2 helloWorldStr) :=
  ⟨(C6_parse_error_iff ⟨2, stdoutStr, []⟩).1.mpr
      (fun _ hs => Option.noConfusion hs),
    (C6_parse_error_iff ⟨2, stdoutStr, [Value.Text helloWorldStr]⟩).2
      helloWorldStr rfl⟩

/-- C7: the `map_err` boundary of `to_cbor` — a serializer failure becomes
`Err(MessageCreationError { message: "stdout", err })` carrying the underlying
encoder error, a serializer success passes through, `to_cbor` is exactly this
wrapper around `ser::to_vec_packed`, and on valid input (where serialization
always succeeds) `to_cbor` returns `Ok` with the encoded bytes. -/
theorem C7_creation_error_wrapper :
    (∀ e, mapCreationError (Except.error e) =
      Except.error (ProtocolError.MessageCreationError "stdout" e)) ∧
    (∀ v, mapCreationError (Except.ok v) = Except.ok v) ∧
    (∀ c d, to_cbor c d = mapCreationError (ser_to_vec_packed c d)) ∧
    (∀ c d, to_cbor c d = Except.ok (serBytes c d)) :=
  ⟨fun _ => rfl, fun _ => rfl, fun _ _ => rfl, fun _ _ => rfl⟩

/-- C8: encoding is deterministic — equal channel identifier and equal
optional payload always produce identical bytes — and self-describing: the
encoded form embeds the leading operation-name discriminator `"stdout"`, so
decoding the bytes yields an envelope whose name field is `"stdout"` without
any external context. -/
theorem C8_deterministic_discriminator (c c2 : Nat) (d d2 : Option RStr)
    (hc : c < 4294967296) (hd : payloadLen d < 18446744073709551616)
    (h1 : c2 = c) (h2 : d2 = d) :
    to_cbor c2 d2 = to_cbor c d ∧
    (to_cbor c d).toOption.bind decode_envelope =
      some ⟨c, stdoutStr, [payloadValue d]⟩ := by
  constructor
  · rw [h1, h2]
  · rw [to_cbor_ok]
    show decode_envelope (serBytes c d) = _
    exact decode_envelope_serBytes c hc d hd

/-- C8 witness at channel 9 with absent payload. -/
theorem C8_deterministic_discriminator_witness :
    to_cbor 9 none = to_cbor 9 none ∧
    (to_cbor 9 none).toOption.bind decode_envelope =
      some ⟨9, stdoutStr, [Value.Null]⟩ :=
  C8_deterministic_discriminator 9 9 none none (by decide) (by decide) rfl rfl

/-- C9: `from_cbor` depends only on the channel identifier and payload
element 0 — any two `ChannelMessage`s agreeing on those decode identically,
whatever their name fields or trailing payload elements, which are silently
ignored rather than rejected. -/
theorem C9_head_only (m1 m2 : ChannelMessage)
    (h1 : m1.channel_id = m2.channel_id)
    (h2 : m1.payload.get? 0 = m2.payload.get? 0) :
    from_cbor m1 = from_cbor m2 := by
  unfold from_cbor
  rw [h1, h2]

/-- C9 witness: extra trailing payload elements (and a different name field)
do not change the decoding result. -/
theorem C9_head_only_witness :
    from_cbor ⟨3, stdoutStr, [Value.Text helloWorldStr]⟩ =
      from_cbor ⟨3, emptyStr, [Value.Text helloWorldStr, Value.Integer 99, Value.Bool true]⟩ ∧
    from_cbor ⟨3, stdoutStr, [Value.Text helloWorldStr]⟩ =
      Except.ok (Message.Stdout 3 helloWorldStr) :=
  ⟨C9_head_only ⟨3, stdoutStr, [Value.Text helloWorldStr]⟩
      ⟨3, emptyStr, [Value.Text helloWorldStr, Value.Integer 99, Value.Bool true]⟩ rfl rfl,
    rfl⟩

/-- C10: `Mode::from` is total on `u8`: each raw value 0 through 12 maps to
the `Mode` variant declared with that discriminant, and every other `u8`
value maps to `Mode::Unknown`, so converting `acs_mode` telemetry never
fails. -/
theorem C10_mode_from_u8 (raw : Nat) (h : raw < 256) :
    (raw ≤ 12 → Mode.discriminant (Mode.fromU8 raw) = raw) ∧
    (12 < raw → Mode.fromU8 raw = Mode.Unknown) := by
  constructor
  · intro h12
    interval_cases raw <;> rfl
  · intro h13
    obtain ⟨m, rfl⟩ : ∃ m, raw = m + 13 := ⟨raw - 13, by omega⟩
    rfl

/-- C10 witness: raw 3 maps to the discriminant-3 variant, raw 200 to
`Unknown`. -/
theorem C10_mode_from_u8_witness :
    Mode.discriminant (Mode.fromU8 3) = 3 ∧ Mode.fromU8 200 = Mode.Unknown :=
  ⟨(C10_mode_from_u8 3 (by decide)).1 (by decide),
    (C10_mode_from_u8 200 (by decide)).2 (by decide)⟩

